import Mathlib

/-!
# Verification of the downsampling pipeline (src/downsampling.py)

Shallow embedding of the pipeline glue in src/downsampling.py. Pure string
and arithmetic computations are translated directly; calls to external tools
(sambamba, mosdepth, rm) are modelled by taking their exit codes and, for
mosdepth, the rows of the generated summary report, as explicit oracle
inputs. Fallible Python code (sys.exit(1), uncaught exceptions such as
TypeError, AttributeError, ZeroDivisionError, ValueError) is modelled with
Except / dedicated result types.
-/

set_option maxHeartbeats 1000000

/-! ## Basic string helpers (Python semantics, structural recursion) -/

-- leadsWith pre s is true iff pre is an initial segment of s.
def leadsWith : List Char → List Char → Bool
  | [], _ => true
  | _ :: _, [] => false
  | a :: as, b :: bs => a == b && leadsWith as bs

-- Python str.endswith(suffix): suffix is a final segment of s.
def endswith (s suffix : String) : Bool :=
  leadsWith suffix.data.reverse s.data.reverse

-- Python str.split(sep) for a one-character separator: keeps empty chunks,
-- returns a single chunk for the empty string.
def splitChar (sep : Char) : List Char → List (List Char)
  | [] => [[]]
  | c :: rest =>
    let r := splitChar sep rest
    if c = sep then [] :: r
    else
      match r with
      | [] => [[c]]
      | g :: gs => (c :: g) :: gs

def pySplit (s : String) (sep : Char) : List String :=
  (splitChar sep s.data).map String.mk

-- Python int(string): an optional minus sign followed by decimal digits.
def digVal (c : Char) : Option Nat :=
  if c.isDigit then some (c.toNat - 48) else none

def digitsToNatAux : List Char → Nat → Option Nat
  | [], acc => some acc
  | c :: cs, acc =>
    match digVal c with
    | none => none
    | some d => digitsToNatAux cs (10 * acc + d)

def digitsToNat : List Char → Option Nat
  | [] => none
  | cs => digitsToNatAux cs 0

def pyInt (s : String) : Option Int :=
  match s.data with
  | '-' :: cs => (digitsToNat cs).map (fun n => -(n : Int))
  | cs => (digitsToNat cs).map (fun n => (n : Int))

/-! ## Error model

sys.exit(1) is a clean fatal exit with a logged message; an uncaught Python
exception also terminates the process with a nonzero status but is a
different observable behaviour (traceback, no log line). -/

inductive PyErr where
  | sysExit1
  | exn (msg : String)
deriving DecidableEq

/-! ## check_type (src/downsampling.py lines 61-69)

if input_file.endswith((".cram",".CRAM")): return "cram"
elif input_file.endswith((".bam",".BAM")): return "bam"
else: sys.exit(1)  -- modelled as none -/

inductive FileType where
  | cram
  | bam
deriving DecidableEq

def check_type (input_file : String) : Option FileType :=
  if endswith input_file ".cram" || endswith input_file ".CRAM" then
    some FileType.cram
  else if endswith input_file ".bam" || endswith input_file ".BAM" then
    some FileType.bam
  else
    none

def typeName : FileType → String
  | FileType.cram => "cram"
  | FileType.bam => "bam"

/-! ## get_ID (lines 71-78)

if sample_name is not None: return sample_name
else: return input_file.split("/")[-1].split(".")[0] -/

def get_ID (input_file : String) (sample_name : Option String) : String :=
  match sample_name with
  | some s => s
  | none => ((pySplit ((pySplit input_file '/').getLastD "") '.')).headD ""

/-! ## temp_output_loc (lines 80-90)

With tmp given: builds tmp/sampleID/covx, mkdirs it, returns it.
Without tmp: builds out_dir/sampleID/tmp and logs it, but then evaluates
args.out_dir on the global argparse Namespace. The Namespace has an
attribute output_dir and no attribute out_dir, so the attribute access
raises AttributeError before any directory is created and before the
return statement is reached. -/

def temp_output_loc (out_dir : String) (tmp : Option String)
    (sampleID cov : String) : Except String String :=
  match tmp with
  | some t => Except.ok (t ++ "/" ++ sampleID ++ "/" ++ cov ++ "x")
  | none =>
      let tempLoc := out_dir ++ "/" ++ sampleID ++ "/tmp"
      Except.error "AttributeError: Namespace object has no attribute out_dir"

/-! ## remove_dup (lines 92-111) -/

-- default filter expression, replaced when skip_dupRm is set (lines 93-98)
def filterString (skip_dupRm : Bool) : String :=
  if skip_dupRm then
    "not (unmapped or mate_is_unmapped) and paired"
  else
    "not (unmapped or mate_is_unmapped) and paired and not duplicate"

-- re.match("bam", file_type): the pattern matches at the start of the string
def reMatchBam (file_type : String) : Bool :=
  leadsWith "bam".data file_type.data

-- cram = "-C"; if re.match("bam", file_type): cram = ""  (lines 94, 99-100)
def cramFlag (file_type : String) : String :=
  if reMatchBam file_type then "" else "-C"

def dupRm_out_path (tempLoc sampleID : String) : String :=
  tempLoc ++ "/" ++ sampleID ++ ".dupRm.bam"

-- the sambamba view command of line 104, with the percent-formatted slots
-- kept as structured fields
structure ViewCmd where
  filterExpr : String
  flagC : String
  threads : Int
  outPath : String
  inPath : String
deriving DecidableEq

def remove_dup_cmd (input_file tempLoc file_type sampleID : String)
    (skip_dupRm : Bool) (threads : Int) : ViewCmd :=
  ViewCmd.mk (filterString skip_dupRm) (cramFlag file_type) threads
    (dupRm_out_path tempLoc sampleID) input_file

-- remove_dup: int(thread) is evaluated while formatting the command (raises
-- ValueError on a non-numeric string), then os.system runs the command; a
-- nonzero exit is fatal (sys.exit(1)); on success the output path is returned.
def remove_dup (input_file tempLoc file_type sampleID : String)
    (skip_dupRm : Bool) (thread : String) (sysExitCode : Int) :
    Except PyErr String :=
  match pyInt thread with
  | none => Except.error (PyErr.exn "ValueError")
  | some _ =>
      if sysExitCode ≠ 0 then Except.error PyErr.sysExit1
      else Except.ok (dupRm_out_path tempLoc sampleID)

/-! ## A small semantics for the sambamba filter expression language

Used to state what the constructed filter strings mean: tokenizer, a
fuel-bounded recursive-descent grammar (or below and, and below not,
parenthesised groups, flag atoms), and a boolean evaluator. -/

inductive FTok where
  | lp
  | rp
  | word (s : String)
deriving DecidableEq

def flushTok (acc : List Char) (ts : List FTok) : List FTok :=
  if acc.isEmpty then ts else FTok.word (String.mk acc) :: ts

def tokenizeAux : List Char → List Char → List FTok
  | [], acc => flushTok acc []
  | c :: rest, acc =>
    if c = ' ' then flushTok acc (tokenizeAux rest [])
    else if c = '(' then flushTok acc (FTok.lp :: tokenizeAux rest [])
    else if c = ')' then flushTok acc (FTok.rp :: tokenizeAux rest [])
    else tokenizeAux rest (acc ++ [c])

def tokenize (s : String) : List FTok := tokenizeAux s.data []

inductive FExpr where
  | lit (s : String)
  | neg (e : FExpr)
  | conj (a b : FExpr)
  | disj (a b : FExpr)
deriving DecidableEq

mutual

def parseDisj (fuel : Nat) (ts : List FTok) : Option (FExpr × List FTok) :=
  match fuel with
  | 0 => none
  | f + 1 =>
    match parseConj f ts with
    | none => none
    | some (e, rest) => parseDisjRest f e rest

def parseDisjRest (fuel : Nat) (acc : FExpr) (ts : List FTok) :
    Option (FExpr × List FTok) :=
  match fuel with
  | 0 => none
  | f + 1 =>
    match ts with
    | FTok.word "or" :: rest =>
      match parseConj f rest with
      | none => none
      | some (e, rest2) => parseDisjRest f (FExpr.disj acc e) rest2
    | _ => some (acc, ts)

def parseConj (fuel : Nat) (ts : List FTok) : Option (FExpr × List FTok) :=
  match fuel with
  | 0 => none
  | f + 1 =>
    match parseNeg f ts with
    | none => none
    | some (e, rest) => parseConjRest f e rest

def parseConjRest (fuel : Nat) (acc : FExpr) (ts : List FTok) :
    Option (FExpr × List FTok) :=
  match fuel with
  | 0 => none
  | f + 1 =>
    match ts with
    | FTok.word "and" :: rest =>
      match parseNeg f rest with
      | none => none
      | some (e, rest2) => parseConjRest f (FExpr.conj acc e) rest2
    | _ => some (acc, ts)

def parseNeg (fuel : Nat) (ts : List FTok) : Option (FExpr × List FTok) :=
  match fuel with
  | 0 => none
  | f + 1 =>
    match ts with
    | FTok.word "not" :: rest =>
      match parseNeg f rest with
      | none => none
      | some (e, rest2) => some (FExpr.neg e, rest2)
    | FTok.lp :: rest =>
      match parseDisj f rest with
      | some (e, FTok.rp :: rest2) => some (e, rest2)
      | _ => none
    | FTok.word w :: rest => some (FExpr.lit w, rest)
    | _ => none

end

def parseFilter (s : String) : Option FExpr :=
  match parseDisj (2 * s.length + 8) (tokenize s) with
  | some (e, []) => some e
  | _ => none

def evalF (env : String → Bool) : FExpr → Bool
  | FExpr.lit s => env s
  | FExpr.neg e => !(evalF env e)
  | FExpr.conj a b => evalF env a && evalF env b
  | FExpr.disj a b => evalF env a || evalF env b

-- the per-read truth assignment for the four flags used by remove_dup
def readEnv (unmapped mateUnmapped paired dup : Bool) (name : String) : Bool :=
  if name = "unmapped" then unmapped
  else if name = "mate_is_unmapped" then mateUnmapped
  else if name = "paired" then paired
  else if name = "duplicate" then dup
  else false

/-! ## get_coverage (lines 113-136) -/

-- one parsed row of the mosdepth summary report: contig name, length, bases
structure SummaryRow where
  contig : String
  length : Nat
  bases : Nat
deriving DecidableEq

-- re.search("^[0-9]...", line) finds a match iff the line starts with a
-- digit; re.search("^chr[0-9]...", line) iff it starts with c, h, r and a
-- digit. The 1,2 repetition bound does not restrict mere matchability.
def startsDigit : List Char → Bool
  | [] => false
  | c :: _ => c.isDigit

def startsChrDigit : List Char → Bool
  | 'c' :: 'h' :: 'r' :: c :: _ => c.isDigit
  | _ => false

-- the row filter of line 129, applied to the start of the report line,
-- which is the start of the contig name
def lineMatches (s : String) : Bool :=
  startsDigit s.data || startsChrDigit s.data

-- loop body of lines 127-132: length += row[1]; bases += row[2] on matching rows
def covStep (acc : Nat × Nat) (r : SummaryRow) : Nat × Nat :=
  if lineMatches r.contig then (acc.1 + r.length, acc.2 + r.bases) else acc

def coverage_sums (rows : List SummaryRow) : Nat × Nat :=
  rows.foldl covStep (0, 0)

-- line 134: cov = bases / length. Python float division raises
-- ZeroDivisionError when length is zero, modelled as none.
def mean_coverage (rows : List SummaryRow) : Option ℚ :=
  let s := coverage_sums rows
  if s.1 = 0 then none else some ((s.2 : ℚ) / (s.1 : ℚ))

def sub_tmp_loc (tempFolder subfolder : String) : String :=
  tempFolder ++ "/" ++ subfolder

-- the output location passed to mosdepth on its command line (line 118)
def mosdepth_out_base (tempFolder subfolder sampleID : String) : String :=
  sub_tmp_loc tempFolder subfolder ++ "/" ++ sampleID

-- line 123: summary_file = sub_tmp + "/" + sampleID + ".mosdepth.summary.txt"
def summary_file_loc (tempFolder subfolder sampleID : String) : String :=
  mosdepth_out_base tempFolder subfolder sampleID ++ ".mosdepth.summary.txt"

-- get_coverage with the mosdepth exit code and the rows of the generated
-- report supplied as oracle inputs
def get_coverage (sampleID tempFolder subfolder : String)
    (mosdepthExitCode : Int) (rows : List SummaryRow) : Except PyErr ℚ :=
  if mosdepthExitCode ≠ 0 then Except.error PyErr.sysExit1
  else
    match mean_coverage rows with
    | none => Except.error (PyErr.exn "ZeroDivisionError")
    | some c => Except.ok c

/-! ## Modelled from the spec: the intended contig filter of section 4.5.

The spec glosses the row filter as, quote, autosomes 1-22 addressed with or
without a chr prefix, sex chromosomes and contigs and decoys excluded. This
second definition follows those words, to be compared with lineMatches. -/

def autosomeNames : List String :=
  (List.range 22).map (fun i => toString (i + 1)) ++
    (List.range 22).map (fun i => "chr" ++ toString (i + 1))

def specAutosome (s : String) : Bool := autosomeNames.contains s

def spec_mean_coverage (rows : List SummaryRow) : Option ℚ :=
  let matched := rows.filter (fun r => specAutosome r.contig)
  let L := (matched.map SummaryRow.length).sum
  let B := (matched.map SummaryRow.bases).sum
  if L = 0 then none else some ((B : ℚ) / (L : ℚ))

/-! ## get_fraction (lines 138-145)

Called from main (line 186) as get_fraction(args.coverage, cov), where
args.coverage is the raw CLI string. A Python value that may be a string or
a number is modelled by PyVal; the comparison str >= float raises TypeError
in Python 3. -/

inductive PyVal where
  | str (s : String)
  | num (q : ℚ)
deriving DecidableEq

inductive FracResult where
  | typeError
  | fatalExit
  | ok (f : ℚ)
deriving DecidableEq

def get_fraction (neededCov : PyVal) (bamCov : ℚ) : FracResult :=
  match neededCov with
  | PyVal.str _ => FracResult.typeError
  | PyVal.num n =>
      if n ≥ bamCov then FracResult.fatalExit
      else FracResult.ok (n / bamCov)

/-! ## downsample_bam (lines 147-160) -/

def subsam_out_dir (output_dir sampleID cov : String) : String :=
  output_dir ++ "/" ++ sampleID ++ "/" ++ cov ++ "x"

def subsam_out_path (output_dir sampleID cov : String) : String :=
  subsam_out_dir output_dir sampleID cov ++ "/" ++ sampleID ++ ".dupRm.subsam.bam"

-- the sambamba subsampling command of line 152, with the percent-formatted
-- slots kept as structured fields
structure SubsamCmd where
  fraction : ℚ
  seed : Int
  outPath : String
  inPath : String
deriving DecidableEq

def subsam_cmd (dupRemovedBam output_dir sampleID : String) (fraction : ℚ)
    (seed : Int) (cov : String) : SubsamCmd :=
  SubsamCmd.mk fraction seed (subsam_out_path output_dir sampleID cov)
    dupRemovedBam

def downsample_bam (dupRemovedBam output_dir sampleID : String)
    (fraction : ℚ) (seed : Int) (cov : String) (sysExitCode : Int) :
    Except PyErr String :=
  if sysExitCode ≠ 0 then Except.error PyErr.sysExit1
  else Except.ok (subsam_out_path output_dir sampleID cov)

/-! ## cleanUp (lines 162-166)

cmd = "rm -rf " + tempFolder; os.system(cmd) -- the return value of
os.system is discarded: unlike every other invocation there is no exit-code
check, so cleanUp completes normally whatever the rm exit code was. -/

def cleanUp (tempFolder : String) (rmExitCode : Int) : Except PyErr Unit :=
  Except.ok ()

/-! ## The workflow driver (lines 168-192) -/

-- seed = 10 (line 170), the fixed hardcoded subsampling seed
def main_seed : Int := 10

inductive ExitKind where
  | success
  | fatal
  | uncaught (msg : String)
deriving DecidableEq

def errExit : PyErr → ExitKind
  | PyErr.sysExit1 => ExitKind.fatal
  | PyErr.exn m => ExitKind.uncaught m

-- the argparse namespace built in parse_args (lines 13-53); coverage and
-- thread keep their CLI string form, sample_name and tmp default to None
structure Args where
  input_file : String
  output_dir : String
  coverage : String
  thread : String
  sample_name : Option String
  skip_dupRm : Bool
  tmp : Option String
  loglevel : String

-- the subsampling command main would construct at line 188
def main_subsam_cmd (args : Args) (dupBam : String) (fraction : ℚ) : SubsamCmd :=
  subsam_cmd dupBam args.output_dir (get_ID args.input_file args.sample_name)
    fraction main_seed args.coverage

-- oracle for the external world: whether the input file exists, the exit
-- codes of the five invoked commands, and the rows of the two mosdepth
-- summary reports
structure Oracle where
  inputExists : Bool
  dupRmExitCode : Int
  mosdepthExitCodeR1 : Int
  rowsR1 : List SummaryRow
  subsamExitCode : Int
  mosdepthExitCodeR2 : Int
  rowsR2 : List SummaryRow
  rmExitCode : Int

-- rm -rf root deletes the directory and everything below it
def rmTree (root : String) (dirs : List String) : List String :=
  dirs.filter (fun d => !(d == root || leadsWith (root ++ "/").data d.data))

-- the driver, returning the process outcome and the list of directories
-- that exist afterwards (those created by the run and not removed)
def run_main (args : Args) (o : Oracle) : ExitKind × List String :=
  if !o.inputExists then (ExitKind.fatal, [])
  else
    let fs0 := [args.output_dir]
    match check_type args.input_file with
    | none => (ExitKind.fatal, fs0)
    | some ft =>
      let sampleID := get_ID args.input_file args.sample_name
      match temp_output_loc args.output_dir args.tmp sampleID args.coverage with
      | Except.error m => (ExitKind.uncaught m, fs0)
      | Except.ok tempFolder =>
        let fs1 := fs0 ++ [tempFolder]
        match remove_dup args.input_file tempFolder (typeName ft) sampleID
            args.skip_dupRm args.thread o.dupRmExitCode with
        | Except.error e => (errExit e, fs1)
        | Except.ok dupBam =>
          let fs2 := fs1 ++ [sub_tmp_loc tempFolder "R1"]
          match get_coverage sampleID tempFolder "R1" o.mosdepthExitCodeR1
              o.rowsR1 with
          | Except.error e => (errExit e, fs2)
          | Except.ok cov =>
            match get_fraction (PyVal.str args.coverage) cov with
            | FracResult.typeError => (ExitKind.uncaught "TypeError", fs2)
            | FracResult.fatalExit => (ExitKind.fatal, fs2)
            | FracResult.ok fraction =>
              let fs3 := fs2 ++ [subsam_out_dir args.output_dir sampleID args.coverage]
              match downsample_bam dupBam args.output_dir sampleID fraction
                  main_seed args.coverage o.subsamExitCode with
              | Except.error e => (errExit e, fs3)
              | Except.ok _ =>
                let fs4 := fs3 ++ [sub_tmp_loc tempFolder "R2"]
                match get_coverage sampleID tempFolder "R2" o.mosdepthExitCodeR2
                    o.rowsR2 with
                | Except.error e => (errExit e, fs4)
                | Except.ok _ =>
                  match cleanUp tempFolder o.rmExitCode with
                  | _ =>
                    (ExitKind.success,
                      if o.rmExitCode == 0 then rmTree tempFolder fs4 else fs4)

-- a concrete invocation on which every external tool succeeds: a bam input,
-- an explicit tmp root, default coverage and thread strings, and a first
-- mosdepth report giving mean autosomal coverage 30
def C7args : Args :=
  Args.mk "s1.bam" "./out" "15" "4" none false (some "/scratch") "DEBUG"

def C7oracle : Oracle :=
  Oracle.mk true 0 0 [SummaryRow.mk "chr1" 1000 30000] 0 0 [] 0

/-! # Helper lemmas -/

lemma covStep_foldl (rows : List SummaryRow) (a b : Nat) :
    rows.foldl covStep (a, b) =
      (a + ((rows.filter fun r => lineMatches r.contig).map SummaryRow.length).sum,
       b + ((rows.filter fun r => lineMatches r.contig).map SummaryRow.bases).sum) := by
  induction rows generalizing a b with
  | nil => simp
  | cons r rs ih =>
    by_cases h : lineMatches r.contig = true
    · simp [covStep, h, ih, Nat.add_assoc]
    · simp [covStep, h, ih]

lemma coverage_sums_spec (rows : List SummaryRow) :
    coverage_sums rows =
      (((rows.filter fun r => lineMatches r.contig).map SummaryRow.length).sum,
       ((rows.filter fun r => lineMatches r.contig).map SummaryRow.bases).sum) := by
  simpa [coverage_sums] using covStep_foldl rows 0 0

lemma leadsWith_mono (a : List Char) : ∀ (b s : List Char),
    leadsWith a s = true → leadsWith b s = true → a.length ≤ b.length →
    leadsWith a b = true := by
  induction a with
  | nil => intro b s _ _ _; rfl
  | cons x xs ih =>
    intro b s h1 h2 hlen
    cases s with
    | nil => simp [leadsWith] at h1
    | cons c cs =>
      cases b with
      | nil => simp at hlen
      | cons y ys =>
        simp only [leadsWith, Bool.and_eq_true, beq_iff_eq] at h1 h2 ⊢
        have hl : xs.length ≤ ys.length := by
          simp only [List.length_cons] at hlen; omega
        exact ⟨h1.1.trans h2.1.symm, ih ys cs h1.2 h2.2 hl⟩

lemma ends_incompat (p su1 su2 : String)
    (hlen : su1.data.reverse.length ≤ su2.data.reverse.length)
    (hfail : leadsWith su1.data.reverse su2.data.reverse = false)
    (h1 : endswith p su1 = true) (h2 : endswith p su2 = true) : False := by
  simp only [endswith] at h1 h2
  have h := leadsWith_mono su1.data.reverse su2.data.reverse p.data.reverse h1 h2 hlen
  rw [hfail] at h
  exact Bool.noConfusion h

lemma errExit_ne_success (e : PyErr) : errExit e ≠ ExitKind.success := by
  cases e <;> simp [errExit]

/-! # Claims -/

/-- C1 counterexample: the row filter of get_coverage is not, as the claim
states, exactly autosomes 1-22 with or without a chr prefix. The regexes are
anchored only at the start of the line, so the contig chr23 also matches: on
the report with rows (chr23,100,100) and (chr1,1000,500) the code returns
600/1100 = 6/11, while a filter keeping exactly autosomes 1-22 (the second,
spec-worded definition) would return 500/1000 = 1/2. Moreover the report
opened is mosdepthBase.mosdepth.summary.txt, not base.summary.txt for the
base passed to the depth tool. -/
theorem C1_counterexample :
    mean_coverage [SummaryRow.mk "chr23" 100 100, SummaryRow.mk "chr1" 1000 500] =
      some (6 / 11) ∧
    spec_mean_coverage [SummaryRow.mk "chr23" 100 100, SummaryRow.mk "chr1" 1000 500] =
      some (1 / 2) ∧
    ¬ ((6 : ℚ) / 11 = 1 / 2) ∧
    summary_file_loc "T" "R1" "s" ≠ mosdepth_out_base "T" "R1" "s" ++ ".summary.txt" := by
  have h1 : coverage_sums
      [SummaryRow.mk "chr23" 100 100, SummaryRow.mk "chr1" 1000 500] = (1100, 600) := by
    decide
  have h2 : [SummaryRow.mk "chr23" 100 100, SummaryRow.mk "chr1" 1000 500].filter
      (fun r => specAutosome r.contig) = [SummaryRow.mk "chr1" 1000 500] := by
    decide
  refine ⟨?_, ?_, by norm_num, by decide⟩
  · rw [mean_coverage, h1]
    norm_num
  · rw [spec_mean_coverage, h2]
    norm_num

/-- C1 amended: get_coverage counts exactly the rows whose line starts with
an ASCII digit or with chr followed by a digit (so 23, chr23 or chr1_random
also match, only the start of the name is constrained), accumulates their
length and basesCovered columns, and returns sum(bases)/sum(length); on the
example rows (chr1,1000,500), (chrX,800,800), (2,2000,1000) this yields 1/2.
The report it opens is the mosdepth output base followed by the literal
suffix .mosdepth.summary.txt. -/
theorem C1_amended_thm :
    (∀ rows : List SummaryRow,
      mean_coverage rows =
        if ((rows.filter fun r => lineMatches r.contig).map SummaryRow.length).sum = 0
        then none
        else some
          ((((rows.filter fun r => lineMatches r.contig).map SummaryRow.bases).sum : ℚ) /
           (((rows.filter fun r => lineMatches r.contig).map SummaryRow.length).sum : ℚ))) ∧
    mean_coverage [SummaryRow.mk "chr1" 1000 500, SummaryRow.mk "chrX" 800 800,
        SummaryRow.mk "2" 2000 1000] = some (1 / 2) ∧
    lineMatches "chrX" = false ∧ lineMatches "chr23" = true ∧
    lineMatches "23" = true ∧ lineMatches "chr1_random" = true ∧
    (∀ tf sf sid, summary_file_loc tf sf sid =
        mosdepth_out_base tf sf sid ++ ".mosdepth.summary.txt") := by
  have h1 : coverage_sums [SummaryRow.mk "chr1" 1000 500, SummaryRow.mk "chrX" 800 800,
      SummaryRow.mk "2" 2000 1000] = (3000, 1500) := by decide
  refine ⟨?_, ?_, by decide, by decide, by decide, by decide, fun tf sf sid => rfl⟩
  · intro rows
    simp [mean_coverage, coverage_sums_spec]
  · rw [mean_coverage, h1]
    norm_num

/-- C2: the Fraction Calculator only behaves as claimed when both inputs are
numeric. The driver (line 186) passes args.coverage, the raw CLI string, so
the very first comparison str >= float raises TypeError in Python 3 instead
of either exiting cleanly or returning a fraction. For genuinely numeric
input the claimed contract does hold: desired >= observed (equality
included) exits fatally, and otherwise desired/observed lies strictly
between 0 and 1. -/
theorem C2_bug_thm :
    get_fraction (PyVal.str "15") 30 = FracResult.typeError ∧
    (∀ n b : ℚ, b ≤ n → get_fraction (PyVal.num n) b = FracResult.fatalExit) ∧
    (∀ n b : ℚ, 0 < n → n < b →
      get_fraction (PyVal.num n) b = FracResult.ok (n / b) ∧
        0 < n / b ∧ n / b < 1) := by
  refine ⟨rfl, ?_, ?_⟩
  · intro n b h
    simp [get_fraction, ge_iff_le, h]
  · intro n b hn hb
    have hb0 : 0 < b := hn.trans hb
    have hnot : ¬ (n ≥ b) := not_le.mpr hb
    exact ⟨by simp [get_fraction, hnot], div_pos hn hb0, (div_lt_one hb0).mpr hb⟩

/-- C2 witness: the three cases of the theorem at concrete inputs: the
driver call shape with the default coverage string raises TypeError; 30
versus observed 15 exits fatally; 15 versus observed 30 returns 1/2. -/
theorem C2_bug_witness :
    get_fraction (PyVal.str "15") 30 = FracResult.typeError ∧
    get_fraction (PyVal.num 30) 15 = FracResult.fatalExit ∧
    (get_fraction (PyVal.num 15) 30 = FracResult.ok (15 / 30) ∧
      0 < (15 : ℚ) / 30 ∧ (15 : ℚ) / 30 < 1) :=
  ⟨C2_bug_thm.1, C2_bug_thm.2.1 30 15 (by norm_num),
    C2_bug_thm.2.2 15 30 (by norm_num) (by norm_num)⟩

/-- C3 counterexample: the suffix test is not case-insensitive. The path
x.Bam carries the suffix bam in mixed letter case, yet check_type neither
returns bam nor cram: it reaches the fatal branch (none, meaning
sys.exit(1)). Only the exact spellings .bam, .BAM, .cram, .CRAM are
recognised. -/
theorem C3_counterexample :
    check_type "x.Bam" ≠ some FileType.bam ∧ check_type "x.Bam" = none := by
  decide

/-- C3 amended: check_type returns cram exactly for paths ending in .cram or
.CRAM, bam exactly for paths ending in .bam or .BAM, and terminates the
process (none) for every other suffix, mixed-case spellings such as .Bam
included. -/
theorem C3_amended_thm (p : String) :
    (check_type p = some FileType.cram ↔
      (endswith p ".cram" = true ∨ endswith p ".CRAM" = true)) ∧
    (check_type p = some FileType.bam ↔
      (endswith p ".bam" = true ∨ endswith p ".BAM" = true)) ∧
    (check_type p = none ↔
      (endswith p ".cram" = false ∧ endswith p ".CRAM" = false ∧
       endswith p ".bam" = false ∧ endswith p ".BAM" = false)) := by
  have k1 : ¬(endswith p ".bam" = true ∧ endswith p ".cram" = true) :=
    fun h => ends_incompat p ".bam" ".cram" (by decide) (by decide) h.1 h.2
  have k2 : ¬(endswith p ".bam" = true ∧ endswith p ".CRAM" = true) :=
    fun h => ends_incompat p ".bam" ".CRAM" (by decide) (by decide) h.1 h.2
  have k3 : ¬(endswith p ".BAM" = true ∧ endswith p ".cram" = true) :=
    fun h => ends_incompat p ".BAM" ".cram" (by decide) (by decide) h.1 h.2
  have k4 : ¬(endswith p ".BAM" = true ∧ endswith p ".CRAM" = true) :=
    fun h => ends_incompat p ".BAM" ".CRAM" (by decide) (by decide) h.1 h.2
  cases hc : endswith p ".cram" <;> cases hC : endswith p ".CRAM" <;>
    cases hb : endswith p ".bam" <;> cases hB : endswith p ".BAM" <;>
      simp_all [check_type]

/-- C3 witness: the amended characterisation applied at a concrete path. -/
theorem C3_amended_witness : check_type "a.bam" = some FileType.bam :=
  (C3_amended_thm "a.bam").2.1.mpr (Or.inl (by decide))

/-- C4: the Workspace Manager honours the claim only in explicit-tmp mode.
With a tmp root it returns tmp/sampleID/covx as claimed. Without one, the
source evaluates args.out_dir on the global argparse namespace, whose
attribute is named output_dir, so the call raises AttributeError: it never
creates nor returns outputDir/sampleID/tmp. -/
theorem C4_bug_thm :
    (∀ d t s c, temp_output_loc d (some t) s c =
        Except.ok (t ++ "/" ++ s ++ "/" ++ c ++ "x")) ∧
    (∀ d s c, temp_output_loc d none s c =
        Except.error "AttributeError: Namespace object has no attribute out_dir") ∧
    temp_output_loc "./out" none "s1" "15" ≠ Except.ok "./out/s1/tmp" := by
  refine ⟨fun d t s c => rfl, fun d s c => rfl, fun h => Except.noConfusion h⟩

/-- C5: the default filter expression, read through the filter-language
semantics, keeps a read exactly when it is mapped, its mate is mapped, it is
paired and it is not a duplicate; with skip_dupRm only the duplicate clause
is dropped (the expression is even the same string minus the final and-not-
duplicate conjunct). The format-conversion flag -C is attached for the cram
kind and empty for the bam kind, and the returned output path is
workspace/sampleID.dupRm.bam. -/
theorem C5_thm :
    (∀ u m p d : Bool,
      (parseFilter (filterString false)).map (evalF (readEnv u m p d)) =
        some ((!(u || m) && p) && !d)) ∧
    (∀ u m p d : Bool,
      (parseFilter (filterString true)).map (evalF (readEnv u m p d)) =
        some (!(u || m) && p)) ∧
    filterString false = filterString true ++ " and not duplicate" ∧
    (∀ i t s k th, (remove_dup_cmd i t "cram" s k th).flagC = "-C") ∧
    (∀ i t s k th, (remove_dup_cmd i t "bam" s k th).flagC = "") ∧
    (∀ tempLoc sampleID, dupRm_out_path tempLoc sampleID =
        tempLoc ++ "/" ++ sampleID ++ ".dupRm.bam") ∧
    remove_dup "in.cram" "/t" "cram" "s1" false "4" 0 = Except.ok "/t/s1.dupRm.bam" := by
  refine ⟨by decide, by decide, by decide, fun i t s k th => rfl,
    fun i t s k th => rfl, fun a b => rfl, rfl⟩

/-- C6: the Sample Identifier returns an explicit override unchanged for
every input path, and otherwise the first dot-delimited token of the final
slash-separated segment: sample1.bqsr.sorted.bam gives sample1, with or
without leading directories. -/
theorem C6_thm :
    (∀ f ovr, get_ID f (some ovr) = ovr) ∧
    get_ID "sample1.bqsr.sorted.bam" none = "sample1" ∧
    get_ID "/data/run5/sample1.bqsr.sorted.bam" none = "sample1" := by
  refine ⟨fun f ovr => rfl, by decide, by decide⟩

/-- C7: no run of the driver can succeed, so the claimed after-success state
is unreachable and the workspace always survives. For every argument vector
and every behaviour of the external tools the driver exits before cleanup:
at the latest, get_fraction receives the raw coverage string and raises
TypeError. On a concrete run in which every external tool succeeds
(C7oracle) the process dies with that TypeError and the workspace directory
/scratch/s1/15x is left behind. -/
theorem C7_bug_thm :
    (∀ args o, (run_main args o).1 ≠ ExitKind.success) ∧
    run_main C7args C7oracle =
      (ExitKind.uncaught "TypeError",
        ["./out", "/scratch/s1/15x", "/scratch/s1/15x/R1"]) ∧
    "/scratch/s1/15x" ∈ (run_main C7args C7oracle).2 := by
  refine ⟨?_, by decide, by decide⟩
  intro args o h
  unfold run_main at h
  repeat' split at h
  all_goals simp_all [errExit_ne_success, get_fraction]
  all_goals repeat' split at h
  all_goals simp_all [errExit_ne_success, get_fraction]

/-- C7 witness: the universally quantified part of the theorem applied to
the concrete successful-tools run. -/
theorem C7_bug_witness : (run_main C7args C7oracle).1 ≠ ExitKind.success :=
  C7_bug_thm.1 C7args C7oracle

/-- C8: the subsampling seed is the hardcoded constant 10 from the driver:
every subsampling command the driver would construct carries seed 10
whatever the arguments, fraction or measured coverage are, and two
invocations that agree on the input file, sample-name override, output
directory and target coverage construct the identical command, whatever
their thread count, skip flag, tmp root or log level. -/
theorem C8_thm :
    main_seed = 10 ∧
    (∀ args dupBam fraction, (main_subsam_cmd args dupBam fraction).seed = 10) ∧
    (∀ a b : Args, ∀ dupBam fraction,
      a.input_file = b.input_file → a.sample_name = b.sample_name →
      a.output_dir = b.output_dir → a.coverage = b.coverage →
      main_subsam_cmd a dupBam fraction = main_subsam_cmd b dupBam fraction) := by
  refine ⟨rfl, fun args d f => rfl, ?_⟩
  intro a b d f h1 h2 h3 h4
  unfold main_subsam_cmd
  rw [h1, h2, h3, h4]

/-- C8 witness: two argument vectors differing in thread count, skip flag,
tmp root and log level construct the identical subsampling command. -/
theorem C8_witness :
    main_subsam_cmd (Args.mk "s1.bam" "./out" "15" "4" none false none "DEBUG")
        "d.bam" (1 / 2) =
      main_subsam_cmd (Args.mk "s1.bam" "./out" "15" "8" none true (some "/scratch2") "INFO")
        "d.bam" (1 / 2) :=
  C8_thm.2.2 _ _ "d.bam" (1 / 2) rfl rfl rfl rfl

/-- C9: the final division of get_coverage is unguarded. When no report row
passes the contig filter the function raises ZeroDivisionError (neither a
clean logged fatal exit nor a zero return), and when the matching rows have
positive total length a coverage value is returned. -/
theorem C9_thm (rows : List SummaryRow) :
    ((∀ r ∈ rows, lineMatches r.contig = false) →
      get_coverage "s" "/t" "R1" 0 rows = Except.error (PyErr.exn "ZeroDivisionError")) ∧
    (0 < (coverage_sums rows).1 →
      ∃ q, get_coverage "s" "/t" "R1" 0 rows = Except.ok q) := by
  constructor
  · intro h
    have hf : rows.filter (fun r => lineMatches r.contig) = [] :=
      List.filter_eq_nil_iff.mpr (by intro a ha; simp [h a ha])
    have hz : coverage_sums rows = (0, 0) := by
      rw [coverage_sums_spec, hf]; simp
    simp [get_coverage, mean_coverage, hz]
  · intro h
    have hne : (coverage_sums rows).1 ≠ 0 := Nat.pos_iff_ne_zero.mp h
    refine ⟨((coverage_sums rows).2 : ℚ) / ((coverage_sums rows).1 : ℚ), ?_⟩
    simp [get_coverage, mean_coverage, hne]

/-- C9 witness: a report whose only row is chrX raises ZeroDivisionError; a
report with a single chr1 row of length 1000 returns a coverage. -/
theorem C9_witness :
    get_coverage "s" "/t" "R1" 0 [SummaryRow.mk "chrX" 800 800] =
        Except.error (PyErr.exn "ZeroDivisionError") ∧
    (∃ q, get_coverage "s" "/t" "R1" 0 [SummaryRow.mk "chr1" 1000 500] = Except.ok q) :=
  ⟨(C9_thm [SummaryRow.mk "chrX" 800 800]).1 (by decide),
    (C9_thm [SummaryRow.mk "chr1" 1000 500]).2 (by decide)⟩

/-- C10: cleanUp discards the rm exit code and completes normally for every
nonzero exit code, while each of the other three external invocations turns
the same nonzero exit code into a fatal exit. Since cleanUp is the last
statement of the driver, a run that reaches it ends with process status 0
regardless of whether the deletion succeeded. -/
theorem C10_thm (tf : String) (code : Int) (h : code ≠ 0) :
    cleanUp tf code = Except.ok () ∧
    remove_dup "in.bam" tf "bam" "s" false "4" code = Except.error PyErr.sysExit1 ∧
    get_coverage "s" tf "R1" code [] = Except.error PyErr.sysExit1 ∧
    downsample_bam "b.bam" "o" "s" (1 / 2) 10 "15" code = Except.error PyErr.sysExit1 := by
  have h4 : pyInt "4" = some 4 := by decide
  exact ⟨rfl, by simp [remove_dup, h4, h], by simp [get_coverage, h],
    by simp [downsample_bam, h]⟩

/-- C10 witness: the theorem at a concrete folder and exit code 1. -/
theorem C10_witness :
    cleanUp "/t" 1 = Except.ok () ∧
    remove_dup "in.bam" "/t" "bam" "s" false "4" 1 = Except.error PyErr.sysExit1 ∧
    get_coverage "s" "/t" "R1" 1 [] = Except.error PyErr.sysExit1 ∧
    downsample_bam "b.bam" "o" "s" (1 / 2) 10 "15" 1 = Except.error PyErr.sysExit1 :=
  C10_thm "/t" 1 (by decide)
